import Mathlib

/-
Verification of the search-ai-agent frontend (src/ai-agent-frontend/src/App.jsx)
against its natural-language specification.

The React component App is embedded shallowly:
  * the useState hooks become the fields of AppState;
  * each async handler (checkAgentStatus, handleSearch, handleSearchAndAnalyze,
    handleChat) becomes a pure function from the state captured at invocation
    time (the closure values of the render) and the outcome of its single
    fetch to a list of events, in the exact order the handler performs them;
  * an Event is either a state update (one setXxx call; the functional update
    setChatMessages(prev => [...prev, m]) is the dedicated appendChatMessage
    event), the issuing of a fetch (request), or the point where the awaited
    fetch either resolves or rejects (settle);
  * the outcome of a fetch is an Option: none models a network failure
    (the catch branch runs), some r models a parsed JSON response r.  A JSON
    field that may be absent is an Option field; the JavaScript pattern
    value || fallback on strings is orElseStr (undefined and the empty string
    are both falsy), and data.results || [] on arrays is Option.getD [].

The Flask backend is not part of src/; where a claim depends on it, a
definition whose doc comment starts with Modelled from the spec supplies it.
-/

namespace SearchAIAgent

/-- SearchResult entity (spec section 3): produced by the search provider call. -/
structure SearchResult where
  title : String
  snippet : String
  source : String
  url : String
deriving DecidableEq

/-- ChatMessage entity (spec section 3 and App.jsx handleChat):
role is "user" or "assistant", timestamp an ISO-8601 string. -/
structure ChatMessage where
  role : String
  content : String
  timestamp : String
deriving DecidableEq

/-- AgentStatus entity: the JSON stored in the agentStatus state.  The catch
branch of checkAgentStatus builds { status: "unhealthy", error: message },
so the model carries an optional error field. -/
structure AgentStatus where
  status : String
  error : Option String
deriving DecidableEq

/-- Parsed JSON body of a /api/agent/search response; the results field may
be absent (the handler reads data.results || []). -/
structure SearchResponse where
  results : Option (List SearchResult)
deriving DecidableEq

/-- Parsed JSON body of a /api/agent/search-and-analyze response; both fields
may be absent (data.search_results || [] and data.analysis || ""). -/
structure AnalyzeResponse where
  search_results : Option (List SearchResult)
  analysis : Option String
deriving DecidableEq

/-- Parsed JSON body of a /api/agent/chat response; the response field may be
absent (the handler reads data.response || fallback). -/
structure ChatResponse where
  response : Option String
deriving DecidableEq

/-- JavaScript String.prototype.trim: removes leading and trailing whitespace.
(Defined on the character list so that it reduces inside the kernel.) -/
def jsTrim (s : String) : String :=
  ⟨((s.data.dropWhile Char.isWhitespace).reverse.dropWhile
      Char.isWhitespace).reverse⟩

/-- The value of the JavaScript expression v || fallback when v is a string
field that may be absent: undefined and the empty string are falsy. -/
def orElseStr (v : Option String) (fallback : String) : String :=
  match v with
  | none => fallback
  | some s => if s = "" then fallback else s

/-- One outbound HTTP request of App.jsx, with the body fields the claims
talk about (fixed header fields are omitted). -/
inductive Request where
  | statusReq : Request
  | searchReq : (query : String) → (numResults : Nat) → Request
  | searchAnalyzeReq : (query : String) → (analysisPrompt : String) → Request
  | chatReq : (message : String) → (history : List ChatMessage) →
      (systemPrompt : String) → Request
deriving DecidableEq

/-- The useState hooks of App, in source order (App.jsx lines 16-25). -/
structure AppState where
  searchQuery : String
  searchResults : List SearchResult
  isSearching : Bool
  chatMessages : List ChatMessage
  chatInput : String
  isChatting : Bool
  analysis : String
  isAnalyzing : Bool
  agentStatus : Option AgentStatus
  activeTab : String
deriving DecidableEq

/-- One observable step of a handler: a state-setter call, the issuing of a
fetch, or the settling (resolution or rejection) of the awaited fetch. -/
inductive Event where
  | setSearchResults : List SearchResult → Event
  | setIsSearching : Bool → Event
  | appendChatMessage : ChatMessage → Event
  | setChatInput : String → Event
  | setIsChatting : Bool → Event
  | setAnalysis : String → Event
  | setIsAnalyzing : Bool → Event
  | setAgentStatus : AgentStatus → Event
  | setActiveTab : String → Event
  | request : Request → Event
  | settle : Event
deriving DecidableEq

/-- Effect of one event on the component state.  appendChatMessage is the
functional update setChatMessages(prev => [...prev, m]); request and settle
do not change state. -/
def applyEvent (s : AppState) : Event → AppState
  | .setSearchResults rs => { s with searchResults := rs }
  | .setIsSearching b => { s with isSearching := b }
  | .appendChatMessage m => { s with chatMessages := s.chatMessages ++ [m] }
  | .setChatInput v => { s with chatInput := v }
  | .setIsChatting b => { s with isChatting := b }
  | .setAnalysis a => { s with analysis := a }
  | .setIsAnalyzing b => { s with isAnalyzing := b }
  | .setAgentStatus st => { s with agentStatus := some st }
  | .setActiveTab t => { s with activeTab := t }
  | .request _ => s
  | .settle => s

/-- Run a list of events from a state. -/
def runEvents (s : AppState) (es : List Event) : AppState :=
  es.foldl applyEvent s

/-- Literal system prompt sent by handleChat (App.jsx line 121). -/
def chatSystemPromptText : String :=
  "You are a helpful AI assistant. Provide clear, informative, and engaging responses."

/-- Literal analysis prompt sent by handleSearchAndAnalyze (App.jsx line 87). -/
def analysisPromptText : String :=
  "Analyze these search results and provide comprehensive insights, key findings, and actionable information."

/-- Fallback assistant content when the chat response field is falsy
(App.jsx line 128). -/
def chatMissingResponseFallback : String := "Sorry, I encountered an error."

/-- Fallback assistant content in the chat catch branch (App.jsx line 136). -/
def chatNetworkErrorFallback : String :=
  "Sorry, I encountered an error while processing your message."

/-- Analysis text set in the search-and-analyze catch branch (App.jsx line 97). -/
def analysisErrorText : String := "Error occurred during analysis."

/-- checkAgentStatus (App.jsx lines 36-45): fetch /api/agent/status, then
either store the parsed body or, in the catch branch, store an unhealthy
status carrying the error message. -/
def checkAgentStatusEvents (outcome : Option AgentStatus)
    (errMessage : String) : List Event :=
  [Event.request Request.statusReq, Event.settle,
   Event.setAgentStatus
     (match outcome with
      | some data => data
      | none => { status := "unhealthy", error := some errMessage })]

/-- handleSearch (App.jsx lines 47-71).  The guard returns when the trimmed
query is empty; otherwise the busy flag is set, the POST issued, the result
list stored (data.results || [], or [] in the catch branch), and the busy
flag cleared in the finally branch. -/
def handleSearchEvents (s : AppState) (outcome : Option SearchResponse) :
    List Event :=
  if jsTrim s.searchQuery = "" then []
  else
    [Event.setIsSearching true,
     Event.request (Request.searchReq s.searchQuery 10), Event.settle] ++
    (match outcome with
     | some data => [Event.setSearchResults (data.results.getD [])]
     | none => [Event.setSearchResults []]) ++
    [Event.setIsSearching false]

/-- handleSearchAndAnalyze (App.jsx lines 73-102): sets both busy flags, issues
the one POST, then stores results, analysis and tab on success, or the empty
result list and the literal error text in the catch branch; the finally branch
clears both flags. -/
def handleSearchAndAnalyzeEvents (s : AppState)
    (outcome : Option AnalyzeResponse) : List Event :=
  if jsTrim s.searchQuery = "" then []
  else
    [Event.setIsSearching true, Event.setIsAnalyzing true,
     Event.request (Request.searchAnalyzeReq s.searchQuery analysisPromptText),
     Event.settle] ++
    (match outcome with
     | some data =>
        [Event.setSearchResults (data.search_results.getD []),
         Event.setAnalysis (data.analysis.getD ""),
         Event.setActiveTab "analysis"]
     | none =>
        [Event.setSearchResults [], Event.setAnalysis analysisErrorText]) ++
    [Event.setIsSearching false, Event.setIsAnalyzing false]

/-- handleChat (App.jsx lines 104-143).  The guard returns when the trimmed
input is empty.  Otherwise the user message (timestamp t1) is appended, the
input cleared and the busy flag set; the POST body takes message and
conversation_history from the render closure, hence from the state s captured
at invocation.  On settle, one assistant message (timestamp t2) is appended:
data.response || fallback on success, the catch literal on failure; the
finally branch clears the busy flag. -/
def handleChatEvents (s : AppState) (t1 t2 : String)
    (outcome : Option ChatResponse) : List Event :=
  if jsTrim s.chatInput = "" then []
  else
    [Event.appendChatMessage
       { role := "user", content := s.chatInput, timestamp := t1 },
     Event.setChatInput "", Event.setIsChatting true,
     Event.request
       (Request.chatReq s.chatInput s.chatMessages chatSystemPromptText),
     Event.settle] ++
    (match outcome with
     | some data =>
        [Event.appendChatMessage
           { role := "assistant",
             content := orElseStr data.response chatMissingResponseFallback,
             timestamp := t2 }]
     | none =>
        [Event.appendChatMessage
           { role := "assistant", content := chatNetworkErrorFallback,
             timestamp := t2 }]) ++
    [Event.setIsChatting false]

/-- A user-or-system action on the App component together with the outcome of
the single fetch it performs.  mount is the useEffect with empty dependency
list (App.jsx lines 28-30), which calls checkAgentStatus once; the other three
are the submit handlers (handleKeyPress only dispatches to one of them, and
the scroll effect performs no network call and no state update). -/
inductive Operation where
  | mount : Option AgentStatus → String → Operation
  | searchSubmit : Option SearchResponse → Operation
  | searchAnalyzeSubmit : Option AnalyzeResponse → Operation
  | chatSubmit : String → String → Option ChatResponse → Operation
deriving DecidableEq

/-- Events an operation performs from state s. -/
def operationEvents (s : AppState) : Operation → List Event
  | .mount outcome errMessage => checkAgentStatusEvents outcome errMessage
  | .searchSubmit outcome => handleSearchEvents s outcome
  | .searchAnalyzeSubmit outcome => handleSearchAndAnalyzeEvents s outcome
  | .chatSubmit t1 t2 outcome => handleChatEvents s t1 t2 outcome

/-- Final state after one operation. -/
def runOperation (s : AppState) (op : Operation) : AppState :=
  runEvents s (operationEvents s op)

/-- Concatenated event log of a sequence of operations, each starting from the
state the previous one produced. -/
def runLog : AppState → List Operation → List Event
  | _, [] => []
  | s, op :: rest => operationEvents s op ++ runLog (runOperation s op) rest

/-- Whether an event is the issuing of the status request. -/
def isStatusRequest : Event → Bool
  | .request .statusReq => true
  | _ => false

/-- Whether an operation is the mount effect. -/
def isMountOp : Operation → Bool
  | .mount _ _ => true
  | _ => false

/-- Whether an event is the issuing of any request. -/
def isRequestEvent : Event → Bool
  | .request _ => true
  | _ => false

/-- Whether an event is the issuing of the chat request. -/
def isChatRequest : Event → Bool
  | .request (.chatReq _ _ _) => true
  | _ => false

/-- Whether an event appends a message with role assistant. -/
def isAssistantAppend : Event → Bool
  | .appendChatMessage m => m.role == "assistant"
  | _ => false

/-- Holds of an event unless it is a chat request whose conversation_history
field differs from h. -/
def chatRequestCarries (h : List ChatMessage) : Event → Bool
  | .request (.chatReq _ hist _) => decide (hist = h)
  | _ => true

/-- Number of status requests in an event list. -/
def statusRequestCount (es : List Event) : Nat :=
  (es.filter isStatusRequest).length

/-- Literal analysis string the modelled gateway returns when the inference
call cannot be completed. -/
def modelUnavailableText : String :=
  "Analysis failed: model inference endpoint unavailable."

/-- Modelled from the spec: the Agent Gateway operation searchAndAnalyze; the
Flask backend is not under src/, only its frontend caller is.  Per spec
section 4.1 it composes search then analyze; if the search step fails it
still attempts analysis over the fixed fallback result set, and a failed
inference call (ModelUnavailable) is surfaced as a literal analysis string
inside the success envelope rather than as an HTTP error.  searchOutcome is
the search step (none = provider failure), fallbackResults the fixed fallback
set, inferenceOutcome the inference call (none = ModelUnavailable, some c =
the completion text). -/
def gatewaySearchAndAnalyze (searchOutcome : Option (List SearchResult))
    (fallbackResults : List SearchResult) (inferenceOutcome : Option String) :
    AnalyzeResponse :=
  { search_results := some (searchOutcome.getD fallbackResults),
    analysis := some (match inferenceOutcome with
      | some completion => completion
      | none => modelUnavailableText) }

/-- Modelled from the spec: the Agent Gateway operation status; the Flask
backend is not under src/.  Per spec sections 4.1 and 8 it performs a
lightweight reachability probe against the inference endpoint and must not
throw: an unreachable endpoint yields status unhealthy with a detail (a
valid, non-error result), a reachable one yields status healthy. -/
def gatewayStatus (probeOutcome : Option String) : AgentStatus :=
  match probeOutcome with
  | none => { status := "unhealthy",
              error := some "inference endpoint unreachable" }
  | some _ => { status := "healthy", error := none }

/-- A concrete component state with a pending chat input, used by witnesses. -/
def chatDemoState : AppState :=
  { searchQuery := "", searchResults := [], isSearching := false,
    chatMessages := [], chatInput := "hello", isChatting := false,
    analysis := "", isAnalyzing := false, agentStatus := none,
    activeTab := "search" }

/-- A concrete component state with a pending search query, used by witnesses. -/
def searchDemoState : AppState :=
  { searchQuery := "capital of France", searchResults := [],
    isSearching := false, chatMessages := [], chatInput := "",
    isChatting := false, analysis := "", isAnalyzing := false,
    agentStatus := none, activeTab := "search" }

/-- Every single event leaves the transcript a list-extension of what it was. -/
theorem applyEvent_chatMessages_extend (s : AppState) (e : Event) :
    ∃ tail, (applyEvent s e).chatMessages = s.chatMessages ++ tail := by
  cases e
  all_goals first
    | exact ⟨[], (List.append_nil _).symm⟩
    | exact ⟨_, rfl⟩

/-- Every event list leaves the transcript a list-extension of what it was. -/
theorem runEvents_chatMessages_extend (es : List Event) (s : AppState) :
    ∃ tail, (runEvents s es).chatMessages = s.chatMessages ++ tail := by
  induction es generalizing s with
  | nil => exact ⟨[], (List.append_nil _).symm⟩
  | cons e rest ih =>
    obtain ⟨t1, h1⟩ := applyEvent_chatMessages_extend s e
    obtain ⟨t2, h2⟩ := ih (applyEvent s e)
    refine ⟨t1 ++ t2, ?_⟩
    show (runEvents (applyEvent s e) rest).chatMessages = _
    rw [h2, h1, List.append_assoc]

/-- Claim C1: for every chat submission with a non-empty message, the user
ChatMessage (role user, content the submitted text) is appended to the
transcript before the chat request is issued (both strictly before the fetch
settles), no assistant message is appended before the settle point, and
exactly one assistant message is appended after it — for every outcome,
success or network failure. -/
theorem chat_optimistic_append (s : AppState) (t1 t2 : String)
    (outcome : Option ChatResponse) (h : ¬ jsTrim s.chatInput = "") :
    ∃ pre post i j, i < j ∧
      handleChatEvents s t1 t2 outcome = pre ++ Event.settle :: post ∧
      pre.get? i = some (Event.appendChatMessage
        { role := "user", content := s.chatInput, timestamp := t1 }) ∧
      pre.get? j = some (Event.request
        (Request.chatReq s.chatInput s.chatMessages chatSystemPromptText)) ∧
      (pre.filter isAssistantAppend).length = 0 ∧
      (post.filter isAssistantAppend).length = 1 := by
  cases outcome with
  | none =>
    refine ⟨[Event.appendChatMessage
        { role := "user", content := s.chatInput, timestamp := t1 },
      Event.setChatInput "", Event.setIsChatting true,
      Event.request
        (Request.chatReq s.chatInput s.chatMessages chatSystemPromptText)],
      [Event.appendChatMessage
        { role := "assistant", content := chatNetworkErrorFallback,
          timestamp := t2 },
       Event.setIsChatting false], 0, 3, by omega, ?_, rfl, rfl, ?_, ?_⟩
    · simp [handleChatEvents, h]
    · simp [List.filter, isAssistantAppend]
    · simp [List.filter, isAssistantAppend]
  | some data =>
    refine ⟨[Event.appendChatMessage
        { role := "user", content := s.chatInput, timestamp := t1 },
      Event.setChatInput "", Event.setIsChatting true,
      Event.request
        (Request.chatReq s.chatInput s.chatMessages chatSystemPromptText)],
      [Event.appendChatMessage
        { role := "assistant",
          content := orElseStr data.response chatMissingResponseFallback,
          timestamp := t2 },
       Event.setIsChatting false], 0, 3, by omega, ?_, rfl, rfl, ?_, ?_⟩
    · simp [handleChatEvents, h]
    · simp [List.filter, isAssistantAppend]
    · simp [List.filter, isAssistantAppend]

/-- Witness for chat_optimistic_append at a concrete state and outcome. -/
theorem chat_optimistic_append_witness :
    ∃ pre post i j, i < j ∧
      handleChatEvents chatDemoState "T1" "T2" none =
        pre ++ Event.settle :: post ∧
      pre.get? i = some (Event.appendChatMessage
        { role := "user", content := "hello", timestamp := "T1" }) ∧
      pre.get? j = some (Event.request
        (Request.chatReq "hello" [] chatSystemPromptText)) ∧
      (pre.filter isAssistantAppend).length = 0 ∧
      (post.filter isAssistantAppend).length = 1 :=
  chat_optimistic_append chatDemoState "T1" "T2" none (by decide)

/-- Claim C3: a chat submission whose input is the empty string is rejected
before any network call: the handler performs no event at all (so no request
is issued) and the component state is completely unchanged. -/
theorem chat_empty_input_noop (s : AppState) (t1 t2 : String)
    (outcome : Option ChatResponse) (h : s.chatInput = "") :
    operationEvents s (.chatSubmit t1 t2 outcome) = [] ∧
    runOperation s (.chatSubmit t1 t2 outcome) = s := by
  have htrim : jsTrim s.chatInput = "" := by rw [h]; rfl
  refine ⟨?_, ?_⟩
  · simp [operationEvents, handleChatEvents, htrim]
  · simp [runOperation, operationEvents, handleChatEvents, htrim, runEvents]

/-- Witness for chat_empty_input_noop at a concrete state. -/
theorem chat_empty_input_noop_witness :
    operationEvents searchDemoState (.chatSubmit "T1" "T2" none) = [] ∧
    runOperation searchDemoState (.chatSubmit "T1" "T2" none) =
      searchDemoState :=
  chat_empty_input_noop searchDemoState "T1" "T2" none rfl

/-- Counterexample to claim C2 as stated: a submission whose request succeeds
(the call settles with a parsed JSON body) and whose response field is present
but equal to the empty string does not append the server response text;
the appended assistant message carries the literal fallback instead. -/
theorem chat_success_fallback_counterexample :
    (runOperation chatDemoState
        (.chatSubmit "T1" "T2" (some { response := some "" }))).chatMessages =
      [{ role := "user", content := "hello", timestamp := "T1" },
       { role := "assistant", content := "Sorry, I encountered an error.",
         timestamp := "T2" }] ∧
    ¬ ("Sorry, I encountered an error." = "") := by
  refine ⟨?_, by decide⟩
  rfl

/-- Claim C2 (amended): for every chat submission with a non-empty message,
exactly one assistant ChatMessage is appended when the call settles — carrying
the server response text when the request succeeds with a present, non-empty
response field, the literal missing-response fallback when the field is
missing or empty, and the literal network-failure fallback when the request
fails — so the transcript grows by exactly two messages. -/
theorem chat_settle_appends_one_assistant (s : AppState) (t1 t2 : String)
    (outcome : Option ChatResponse) (h : ¬ jsTrim s.chatInput = "") :
    ∃ a : ChatMessage,
      (runOperation s (.chatSubmit t1 t2 outcome)).chatMessages =
        s.chatMessages ++
          [{ role := "user", content := s.chatInput, timestamp := t1 }, a] ∧
      (runOperation s (.chatSubmit t1 t2 outcome)).chatMessages.length =
        s.chatMessages.length + 2 ∧
      a.role = "assistant" ∧ a.timestamp = t2 ∧
      (∀ txt, outcome = some { response := some txt } → ¬ txt = "" →
        a.content = txt) ∧
      (outcome = some { response := some "" } ∨
          outcome = some { response := none } →
        a.content = chatMissingResponseFallback) ∧
      (outcome = none → a.content = chatNetworkErrorFallback) := by
  cases outcome with
  | none =>
    refine ⟨⟨"assistant", chatNetworkErrorFallback, t2⟩,
      ?_, ?_, rfl, rfl, ?_, ?_, fun _ => rfl⟩
    · simp [runOperation, operationEvents, handleChatEvents, h, runEvents,
        applyEvent]
    · simp [runOperation, operationEvents, handleChatEvents, h, runEvents,
        applyEvent]
    · intro txt hx
      exact absurd hx (by simp)
    · intro hx
      rcases hx with hx | hx <;> exact absurd hx (by simp)
  | some data =>
    refine ⟨⟨"assistant", orElseStr data.response chatMissingResponseFallback,
        t2⟩, ?_, ?_, rfl, rfl, ?_, ?_, fun hx => by cases hx⟩
    · simp [runOperation, operationEvents, handleChatEvents, h, runEvents,
        applyEvent]
    · simp [runOperation, operationEvents, handleChatEvents, h, runEvents,
        applyEvent]
    · intro txt hx hne
      obtain rfl : data = { response := some txt } := by
        injection hx
      simp [orElseStr, hne]
    · intro hx
      rcases hx with hx | hx
      · obtain rfl : data = { response := some "" } := by injection hx
        simp [orElseStr]
      · obtain rfl : data = { response := none } := by injection hx
        simp [orElseStr]

/-- Witness for chat_settle_appends_one_assistant at a concrete state. -/
theorem chat_settle_appends_one_assistant_witness :
    ∃ a : ChatMessage,
      (runOperation chatDemoState
          (.chatSubmit "T1" "T2" (some { response := some "hi!" }))).chatMessages =
        [{ role := "user", content := "hello", timestamp := "T1" }, a] ∧
      (runOperation chatDemoState
          (.chatSubmit "T1" "T2" (some { response := some "hi!" }))).chatMessages.length =
        ([] : List ChatMessage).length + 2 ∧
      a.role = "assistant" ∧ a.timestamp = "T2" ∧
      (∀ txt, (some { response := some "hi!" } : Option ChatResponse) =
          some { response := some txt } → ¬ txt = "" → a.content = txt) ∧
      ((some { response := some "hi!" } : Option ChatResponse) =
          some { response := some "" } ∨
        (some { response := some "hi!" } : Option ChatResponse) =
          some { response := none } →
        a.content = chatMissingResponseFallback) ∧
      ((some { response := some "hi!" } : Option ChatResponse) = none →
        a.content = chatNetworkErrorFallback) :=
  chat_settle_appends_one_assistant chatDemoState "T1" "T2"
    (some { response := some "hi!" }) (by decide)

/-- Claim C4: for every search submission with a non-empty query, a network
failure of the search request produces exactly the same final state as a
successful zero-result response; the result list becomes empty on failure;
the search-busy flag is cleared for every outcome; and no other piece of
state changes (no distinct error state), for every outcome. -/
theorem search_failure_is_zero_results (s : AppState)
    (h : ¬ jsTrim s.searchQuery = "") :
    runOperation s (.searchSubmit none) =
      runOperation s (.searchSubmit (some { results := some [] })) ∧
    (runOperation s (.searchSubmit none)).searchResults = [] ∧
    (∀ outcome, (runOperation s (.searchSubmit outcome)).isSearching = false) ∧
    (∀ outcome,
      (runOperation s (.searchSubmit outcome)).searchQuery = s.searchQuery ∧
      (runOperation s (.searchSubmit outcome)).chatMessages = s.chatMessages ∧
      (runOperation s (.searchSubmit outcome)).chatInput = s.chatInput ∧
      (runOperation s (.searchSubmit outcome)).isChatting = s.isChatting ∧
      (runOperation s (.searchSubmit outcome)).analysis = s.analysis ∧
      (runOperation s (.searchSubmit outcome)).isAnalyzing = s.isAnalyzing ∧
      (runOperation s (.searchSubmit outcome)).agentStatus = s.agentStatus ∧
      (runOperation s (.searchSubmit outcome)).activeTab = s.activeTab) := by
  refine ⟨?_, ?_, ?_, ?_⟩
  · simp [runOperation, operationEvents, handleSearchEvents, h, runEvents,
      applyEvent]
  · simp [runOperation, operationEvents, handleSearchEvents, h, runEvents,
      applyEvent]
  · intro outcome
    cases outcome <;>
      simp [runOperation, operationEvents, handleSearchEvents, h, runEvents,
        applyEvent]
  · intro outcome
    cases outcome <;>
      simp [runOperation, operationEvents, handleSearchEvents, h, runEvents,
        applyEvent]

/-- Witness for search_failure_is_zero_results at a concrete state. -/
theorem search_failure_is_zero_results_witness :
    runOperation searchDemoState (.searchSubmit none) =
      runOperation searchDemoState (.searchSubmit (some { results := some [] })) ∧
    (runOperation searchDemoState (.searchSubmit none)).searchResults = [] ∧
    (∀ outcome,
      (runOperation searchDemoState (.searchSubmit outcome)).isSearching =
        false) ∧
    (∀ outcome,
      (runOperation searchDemoState (.searchSubmit outcome)).searchQuery =
        searchDemoState.searchQuery ∧
      (runOperation searchDemoState (.searchSubmit outcome)).chatMessages =
        searchDemoState.chatMessages ∧
      (runOperation searchDemoState (.searchSubmit outcome)).chatInput =
        searchDemoState.chatInput ∧
      (runOperation searchDemoState (.searchSubmit outcome)).isChatting =
        searchDemoState.isChatting ∧
      (runOperation searchDemoState (.searchSubmit outcome)).analysis =
        searchDemoState.analysis ∧
      (runOperation searchDemoState (.searchSubmit outcome)).isAnalyzing =
        searchDemoState.isAnalyzing ∧
      (runOperation searchDemoState (.searchSubmit outcome)).agentStatus =
        searchDemoState.agentStatus ∧
      (runOperation searchDemoState (.searchSubmit outcome)).activeTab =
        searchDemoState.activeTab) :=
  search_failure_is_zero_results searchDemoState (by decide)

/-- Claim C5: for every search-and-analyze submission with a non-empty query,
both the search-busy and analysis-busy flags are set to true before the
single search-and-analyze request is issued (that request is the only one the
handler performs), and both flags are false in the final state for every
outcome, success or failure. -/
theorem analyze_sets_both_flags (s : AppState)
    (outcome : Option AnalyzeResponse) (h : ¬ jsTrim s.searchQuery = "") :
    ∃ pre post,
      handleSearchAndAnalyzeEvents s outcome =
        pre ++ Event.request
          (Request.searchAnalyzeReq s.searchQuery analysisPromptText) :: post ∧
      Event.setIsSearching true ∈ pre ∧
      Event.setIsAnalyzing true ∈ pre ∧
      ((handleSearchAndAnalyzeEvents s outcome).filter isRequestEvent).length
        = 1 ∧
      (runOperation s (.searchAnalyzeSubmit outcome)).isSearching = false ∧
      (runOperation s (.searchAnalyzeSubmit outcome)).isAnalyzing = false := by
  cases outcome with
  | none =>
    refine ⟨[Event.setIsSearching true, Event.setIsAnalyzing true],
      [Event.settle, Event.setSearchResults [],
       Event.setAnalysis analysisErrorText,
       Event.setIsSearching false, Event.setIsAnalyzing false],
      ?_, ?_, ?_, ?_, ?_, ?_⟩
    · simp [handleSearchAndAnalyzeEvents, h]
    · simp
    · simp
    · simp [handleSearchAndAnalyzeEvents, h, List.filter, isRequestEvent]
    · simp [runOperation, operationEvents, handleSearchAndAnalyzeEvents, h,
        runEvents, applyEvent]
    · simp [runOperation, operationEvents, handleSearchAndAnalyzeEvents, h,
        runEvents, applyEvent]
  | some data =>
    refine ⟨[Event.setIsSearching true, Event.setIsAnalyzing true],
      [Event.settle, Event.setSearchResults (data.search_results.getD []),
       Event.setAnalysis (data.analysis.getD ""), Event.setActiveTab "analysis",
       Event.setIsSearching false, Event.setIsAnalyzing false],
      ?_, ?_, ?_, ?_, ?_, ?_⟩
    · simp [handleSearchAndAnalyzeEvents, h]
    · simp
    · simp
    · simp [handleSearchAndAnalyzeEvents, h, List.filter, isRequestEvent]
    · simp [runOperation, operationEvents, handleSearchAndAnalyzeEvents, h,
        runEvents, applyEvent]
    · simp [runOperation, operationEvents, handleSearchAndAnalyzeEvents, h,
        runEvents, applyEvent]

/-- Witness for analyze_sets_both_flags at a concrete state and outcome. -/
theorem analyze_sets_both_flags_witness :
    ∃ pre post,
      handleSearchAndAnalyzeEvents searchDemoState none =
        pre ++ Event.request
          (Request.searchAnalyzeReq "capital of France" analysisPromptText)
          :: post ∧
      Event.setIsSearching true ∈ pre ∧
      Event.setIsAnalyzing true ∈ pre ∧
      ((handleSearchAndAnalyzeEvents searchDemoState none).filter
        isRequestEvent).length = 1 ∧
      (runOperation searchDemoState (.searchAnalyzeSubmit none)).isSearching =
        false ∧
      (runOperation searchDemoState (.searchAnalyzeSubmit none)).isAnalyzing =
        false :=
  analyze_sets_both_flags searchDemoState none (by decide)

/-- Claim C6: for every non-empty query, the analysis shown after the
search-and-analyze call settles is never the empty string: when the call
settles with a response from the modelled gateway (for any search-step
outcome, including failure, and any inference outcome whose completion is
non-empty) the stored analysis is non-empty, and when the call itself fails
the stored analysis is the non-empty literal error text. -/
theorem analyze_analysis_nonempty (s : AppState)
    (searchOutcome : Option (List SearchResult))
    (fallbackResults : List SearchResult) (inferenceOutcome : Option String)
    (hq : ¬ jsTrim s.searchQuery = "")
    (hc : ∀ c, inferenceOutcome = some c → ¬ c = "") :
    ¬ (runOperation s (.searchAnalyzeSubmit
        (some (gatewaySearchAndAnalyze searchOutcome fallbackResults
          inferenceOutcome)))).analysis = "" ∧
    ¬ (runOperation s (.searchAnalyzeSubmit none)).analysis = "" := by
  constructor
  · cases inferenceOutcome with
    | none =>
      simp [runOperation, operationEvents, handleSearchAndAnalyzeEvents, hq,
        runEvents, applyEvent, gatewaySearchAndAnalyze, modelUnavailableText]
    | some c =>
      have hc2 := hc c rfl
      simpa [runOperation, operationEvents, handleSearchAndAnalyzeEvents, hq,
        runEvents, applyEvent, gatewaySearchAndAnalyze] using hc2
  · simp [runOperation, operationEvents, handleSearchAndAnalyzeEvents, hq,
      runEvents, applyEvent, analysisErrorText]

/-- Witness for analyze_analysis_nonempty at a concrete state: the search
step failed (none) and the inference call failed (none). -/
theorem analyze_analysis_nonempty_witness :
    ¬ (runOperation searchDemoState (.searchAnalyzeSubmit
        (some (gatewaySearchAndAnalyze none [] none)))).analysis = "" ∧
    ¬ (runOperation searchDemoState (.searchAnalyzeSubmit none)).analysis
        = "" :=
  analyze_analysis_nonempty searchDemoState none [] none (by decide)
    (fun c hx => nomatch hx)

/-- Claim C7: the status probe always produces an AgentStatus.  When the
gateway is reached, the stored value is exactly the status the gateway
reports, and for an unreachable inference endpoint that report is unhealthy
with a detail; when the gateway itself cannot be reached, the catch branch
stores unhealthy with the error message; in every case some AgentStatus is
stored. -/
theorem status_probe_total (s : AppState) (probeOutcome : Option String)
    (errMessage : String) :
    (runOperation s (.mount (some (gatewayStatus probeOutcome))
        errMessage)).agentStatus = some (gatewayStatus probeOutcome) ∧
    (probeOutcome = none →
      (gatewayStatus probeOutcome).status = "unhealthy" ∧
      ¬ (gatewayStatus probeOutcome).error = none) ∧
    (runOperation s (.mount none errMessage)).agentStatus =
      some { status := "unhealthy", error := some errMessage } ∧
    (∀ outcome,
      ¬ (runOperation s (.mount outcome errMessage)).agentStatus = none) := by
  refine ⟨?_, ?_, ?_, ?_⟩
  · simp [runOperation, operationEvents, checkAgentStatusEvents, runEvents,
      applyEvent]
  · intro hp
    subst hp
    exact ⟨rfl, by simp [gatewayStatus]⟩
  · simp [runOperation, operationEvents, checkAgentStatusEvents, runEvents,
      applyEvent]
  · intro outcome
    cases outcome <;>
      simp [runOperation, operationEvents, checkAgentStatusEvents, runEvents,
        applyEvent]

/-- Witness for status_probe_total: an unreachable inference endpoint is
reported unhealthy with a detail. -/
theorem status_probe_total_witness :
    (gatewayStatus (none : Option String)).status = "unhealthy" ∧
    ¬ (gatewayStatus (none : Option String)).error = none :=
  (status_probe_total searchDemoState none "network down").2.1 rfl

/-- Each single operation issues one status request when it is the mount
effect and none otherwise. -/
theorem operationEvents_statusCount (s : AppState) (op : Operation) :
    statusRequestCount (operationEvents s op) =
      if isMountOp op then 1 else 0 := by
  cases op with
  | mount outcome errMessage => rfl
  | searchSubmit outcome =>
    by_cases hq : jsTrim s.searchQuery = "" <;> cases outcome <;>
      simp [operationEvents, handleSearchEvents, hq, statusRequestCount,
        List.filter, isStatusRequest, isMountOp]
  | searchAnalyzeSubmit outcome =>
    by_cases hq : jsTrim s.searchQuery = "" <;> cases outcome <;>
      simp [operationEvents, handleSearchAndAnalyzeEvents, hq,
        statusRequestCount, List.filter, isStatusRequest, isMountOp]
  | chatSubmit t1 t2 outcome =>
    by_cases hq : jsTrim s.chatInput = "" <;> cases outcome <;>
      simp [operationEvents, handleChatEvents, hq, statusRequestCount,
        List.filter, isStatusRequest, isMountOp]

/-- Claim C8: over any session (any operation sequence from any state), the
number of status requests issued equals the number of mount effects in the
sequence — the mount effect issues exactly one status request and no other
operation (search, search-and-analyze, chat, with any outcome) ever issues
one, so nothing refreshes the agent status after mount. -/
theorem status_poll_once_at_mount (s : AppState) (ops : List Operation) :
    statusRequestCount (runLog s ops) = (ops.filter isMountOp).length ∧
    ∀ sx op, statusRequestCount (operationEvents sx op) =
      if isMountOp op then 1 else 0 := by
  refine ⟨?_, fun sx op => operationEvents_statusCount sx op⟩
  induction ops generalizing s with
  | nil => rfl
  | cons op rest ih =>
    calc statusRequestCount (runLog s (op :: rest))
        = statusRequestCount (operationEvents s op) +
            statusRequestCount (runLog (runOperation s op) rest) := by
          simp [runLog, statusRequestCount, List.filter_append]
      _ = (if isMountOp op then 1 else 0) +
            (rest.filter isMountOp).length := by
          rw [operationEvents_statusCount, ih]
      _ = ((op :: rest).filter isMountOp).length := by
          rw [List.filter_cons]
          split <;> simp [Nat.add_comm]

/-- Claim C9: the transcript is append-only — every operation (mount, search,
search-and-analyze or chat submit, with any outcome) leaves the transcript a
list-extension of what it was, so no existing message is modified — and every
chat request an operation issues carries the full transcript as it stood at
submit time as its conversation_history. -/
theorem transcript_append_only (s : AppState) (op : Operation) :
    (∃ tail, (runOperation s op).chatMessages = s.chatMessages ++ tail) ∧
    (operationEvents s op).all (chatRequestCarries s.chatMessages) = true := by
  refine ⟨runEvents_chatMessages_extend _ s, ?_⟩
  cases op with
  | mount outcome errMessage => rfl
  | searchSubmit outcome =>
    by_cases hq : jsTrim s.searchQuery = "" <;> cases outcome <;>
      simp [operationEvents, handleSearchEvents, hq, List.all,
        chatRequestCarries]
  | searchAnalyzeSubmit outcome =>
    by_cases hq : jsTrim s.searchQuery = "" <;> cases outcome <;>
      simp [operationEvents, handleSearchAndAnalyzeEvents, hq, List.all,
        chatRequestCarries]
  | chatSubmit t1 t2 outcome =>
    by_cases hq : jsTrim s.chatInput = "" <;> cases outcome <;>
      simp [operationEvents, handleChatEvents, hq, List.all,
        chatRequestCarries]

/-- Claim C10: for every chat submission with a non-empty message, the
handler issues exactly one chat request; at the moment it is issued the
transcript already ends with the optimistically appended user message, yet
the conversation_history field of the request body is the transcript as it
stood before that append, with the new text only in the message field. -/
theorem chat_history_is_pre_append (s : AppState) (t1 t2 : String)
    (outcome : Option ChatResponse) (h : ¬ jsTrim s.chatInput = "") :
    ∃ j, (handleChatEvents s t1 t2 outcome).get? j =
        some (Event.request
          (Request.chatReq s.chatInput s.chatMessages chatSystemPromptText)) ∧
      (runEvents s ((handleChatEvents s t1 t2 outcome).take j)).chatMessages =
        s.chatMessages ++
          [{ role := "user", content := s.chatInput, timestamp := t1 }] ∧
      ((handleChatEvents s t1 t2 outcome).filter isChatRequest).length = 1 ∧
      (handleChatEvents s t1 t2 outcome).all
        (chatRequestCarries s.chatMessages) = true := by
  refine ⟨3, ?_, ?_, ?_, ?_⟩
  · cases outcome <;> simp [handleChatEvents, h]
  · cases outcome <;>
      simp [handleChatEvents, h, runEvents, applyEvent, List.take]
  · cases outcome <;>
      simp [handleChatEvents, h, List.filter, isChatRequest]
  · cases outcome <;>
      simp [handleChatEvents, h, List.all, chatRequestCarries]

/-- Witness for chat_history_is_pre_append at a concrete state. -/
theorem chat_history_is_pre_append_witness :
    ∃ j, (handleChatEvents chatDemoState "T1" "T2" none).get? j =
        some (Event.request
          (Request.chatReq "hello" [] chatSystemPromptText)) ∧
      (runEvents chatDemoState
          ((handleChatEvents chatDemoState "T1" "T2" none).take j)).chatMessages
        = [{ role := "user", content := "hello", timestamp := "T1" }] ∧
      ((handleChatEvents chatDemoState "T1" "T2" none).filter
        isChatRequest).length = 1 ∧
      (handleChatEvents chatDemoState "T1" "T2" none).all
        (chatRequestCarries []) = true :=
  chat_history_is_pre_append chatDemoState "T1" "T2" none (by decide)

end SearchAIAgent
